import Mathlib

/-
  Verification development for the Bus_Time_Desktop_App ingestion pipeline
  (class BusService in the final revision of the service file).

  The service normalizes a hierarchical payload (stop code -> stop record with
  a map of bus lines -> per-day first/last departure times) into three flat
  row batches and writes them through a transactional SQL-like store.

  Shallow-embedding conventions:
  - the JS object payload is a list of (key, value) pairs in iteration order;
  - JS numbers produced by parseInt are `Option Int` (`none` models NaN);
  - JS truthiness on the time strings: absent (`none`) and the empty string
    are falsy, every other string is truthy;
  - latitude/longitude are opaque pass-through numeric values, modelled as
    rationals (the pipeline never inspects them);
  - the external transactional store: inserts inside the open transaction act
    on a working copy of the committed tables; COMMIT publishes the working
    copy, ROLLBACK discards it.  An adversarial oracle `failAt` chooses which
    insert statement (by position) fails and with which error, modelling that
    any single insert may fail; `none` means every insert succeeds.
  - `await invoke('fetch_bus_data_from_api')` and `Database.load` are opaque
    external calls; their outcomes are passed in as `Except` values.
-/

namespace BusApp

/-- A JS exception value flowing through try/catch; the string is its message. -/
inductive JsError where
  | fetchFailed (msg : String)
  | insertFailed (msg : String)
deriving DecidableEq, Repr

/-- error.toString() of a JS Error. -/
def errString : JsError → String
  | .fetchFailed m => "Error: " ++ m
  | .insertFailed m => "Error: " ++ m

/-- A per-day first/last departure pair in the raw payload
(field `fb` and `lb`); `none` models an absent property. -/
structure TimePair where
  fb : Option String
  lb : Option String
deriving DecidableEq, Repr

/-- A bus-route record of the raw payload (the value under one bus number of
`stopData.buses`); `wd_flb`, `sat_flb`, `sun_flb` are `none` when the property
is absent (or null, which the code treats the same way). -/
structure BusRouteData where
  operator : String
  stop_seq : Int
  wd_flb : Option TimePair
  sat_flb : Option TimePair
  sun_flb : Option TimePair
deriving DecidableEq, Repr

/-- A stop record of the raw payload (the value under one stop code). -/
structure StopData where
  road_name : String
  desc : String
  latitude : Rat
  longitude : Rat
  buses : List (String × BusRouteData)
deriving DecidableEq, Repr

/-- The raw hierarchical payload: stop-code keys with their records, in
object-iteration order. -/
abbrev Payload : Type := List (String × StopData)

/-- Longest digit prefix of a character list, as a number; `none` when there
is no leading digit (parseInt returns NaN then). -/
def parseNatPrefix (cs : List Char) : Option Nat :=
  let ds := cs.takeWhile Char.isDigit
  if ds.isEmpty then none
  else some (ds.foldl (fun acc c => 10 * acc + (c.toNat - ('0').toNat)) 0)

/-- JS `parseInt(s, 10)`: skip leading whitespace, optional sign, then the
longest digit prefix; `none` models the NaN result. -/
def parseIntJS (s : String) : Option Int :=
  match s.data.dropWhile Char.isWhitespace with
  | '-' :: rest => (parseNatPrefix rest).map (fun n => -(n : Int))
  | '+' :: rest => (parseNatPrefix rest).map (fun n => (n : Int))
  | rest => (parseNatPrefix rest).map (fun n => (n : Int))

/-- A row of the bus_stops table, as pushed onto `stopsToInsert`. -/
structure StopRow where
  bus_stop_id : Option Int
  road_name : String
  description : String
  latitude : Rat
  longitude : Rat
deriving DecidableEq, Repr

/-- A row of the bus_routes table, as pushed onto `routesToInsert`. -/
structure RouteRow where
  route_id : String
  bus_stop_id : Option Int
  bus_number : String
  operator : String
  stop_seq : Int
deriving DecidableEq, Repr

/-- A row of the bus_times table, as pushed onto `timesToInsert`. -/
structure TimeRow where
  route_id : String
  day_of_week : String
  first_bus : String
  last_bus : String
deriving DecidableEq, Repr

/-- The synthesized route identifier: the template literal
`busStopCode ++ "-" ++ busNumber`. -/
def routeId (busStopCode busNumber : String) : String :=
  busStopCode ++ "-" ++ busNumber

/-- The bus_stops row pushed for one payload entry. -/
def stopRow (busStopCode : String) (sd : StopData) : StopRow :=
  { bus_stop_id := parseIntJS busStopCode
  , road_name := sd.road_name
  , description := sd.desc
  , latitude := sd.latitude
  , longitude := sd.longitude }

/-- The bus_routes row pushed for one bus line under a stop. -/
def routeRow (busStopCode busNumber : String) (r : BusRouteData) : RouteRow :=
  { route_id := routeId busStopCode busNumber
  , bus_stop_id := parseIntJS busStopCode
  , bus_number := busNumber
  , operator := r.operator
  , stop_seq := r.stop_seq }

/-- The body of the per-day loop: `if (times && times.fb && times.lb)` push a
bus_times row, else push nothing.  Absent pair, absent member, or an empty
(falsy) string all skip the row. -/
def scheduleRow (rid day : String) : Option TimePair → Option TimeRow
  | some ⟨some fb, some lb⟩ =>
      if fb ≠ "" ∧ lb ≠ "" then some ⟨rid, day, fb, lb⟩ else none
  | _ => none

/-- The `days` map `{ wd_flb: 'wd', sat_flb: 'sat', sun_flb: 'sun' }`, paired
with the field each key selects, in object-iteration order. -/
def dayPairs (r : BusRouteData) : List (Option TimePair × String) :=
  [(r.wd_flb, "wd"), (r.sat_flb, "sat"), (r.sun_flb, "sun")]

/-- All bus_times rows pushed for one route record. -/
def scheduleRows (rid : String) (r : BusRouteData) : List TimeRow :=
  (dayPairs r).filterMap (fun p => scheduleRow rid p.2 p.1)

/-- All bus_routes rows pushed while iterating `stopData.buses`. -/
def routeRows (busStopCode : String) (sd : StopData) : List RouteRow :=
  sd.buses.map (fun p => routeRow busStopCode p.1 p.2)

/-- All bus_times rows pushed while iterating `stopData.buses`. -/
def timeRowsForStop (busStopCode : String) (sd : StopData) : List TimeRow :=
  sd.buses.flatMap (fun p => scheduleRows (routeId busStopCode p.1) p.2)

/-- The three in-memory batches `stopsToInsert`, `routesToInsert`,
`timesToInsert`. -/
structure Batches where
  stops : List StopRow
  routes : List RouteRow
  times : List TimeRow
deriving DecidableEq, Repr

/-- The normalization loop of fetchAndStoreBusData: one pass over the payload
pushing onto the three arrays (rendered as map/bind in iteration order). -/
def normalize (payload : Payload) : Batches :=
  { stops := payload.map (fun p => stopRow p.1 p.2)
  , routes := payload.flatMap (fun p => routeRows p.1 p.2)
  , times := payload.flatMap (fun p => timeRowsForStop p.1 p.2) }

/-- The committed contents of the three tables. -/
structure Store where
  bus_stops : List StopRow
  bus_routes : List RouteRow
  bus_times : List TimeRow
deriving DecidableEq, Repr

/-- The store before any load. -/
def emptyStore : Store := ⟨[], [], []⟩

/-- One multi-row INSERT statement (one chunk) against one table. -/
inductive InsertOp where
  | stops (chunk : List StopRow)
  | routes (chunk : List RouteRow)
  | times (chunk : List TimeRow)
deriving DecidableEq, Repr

/-- Effect of one successful multi-row INSERT on the working tables. -/
def execOp (st : Store) : InsertOp → Store
  | .stops c => { st with bus_stops := st.bus_stops ++ c }
  | .routes c => { st with bus_routes := st.bus_routes ++ c }
  | .times c => { st with bus_times := st.bus_times ++ c }

/-- One step of `chunkArray`, with explicit fuel (the JS loop
`for (let i = 0; i < arr.length; i += size)` advances by `size` each turn;
fuel `arr.length` suffices for every size >= 1; for size 0 the JS loop
diverges, which the model cuts off). -/
def chunkArrayGo {α : Type} (size : Nat) : Nat → List α → List (List α)
  | _, [] => []
  | 0, _ :: _ => []
  | fuel + 1, a :: as => ((a :: as).take size) :: chunkArrayGo size fuel ((a :: as).drop size)

/-- `chunkArray(arr, size)`: slice the array into consecutive chunks of
`size` elements (last chunk possibly shorter). -/
def chunkArray {α : Type} (arr : List α) (size : Nat) : List (List α) :=
  chunkArrayGo size arr.length arr

/-- The full statement sequence issued between BEGIN and COMMIT: the stop
chunks, then the route chunks, then the time chunks (chunk size 500 at the
call site). -/
def insertOps (size : Nat) (b : Batches) : List InsertOp :=
  (chunkArray b.stops size).map InsertOp.stops
    ++ (chunkArray b.routes size).map InsertOp.routes
    ++ (chunkArray b.times size).map InsertOp.times

/-- Run the insert statements in order on the working copy; the oracle
`some (i, e)` makes the i-th statement (0-based) raise `e`, `none` lets all
succeed. -/
def runOps : List InsertOp → Option (Nat × JsError) → Store → Except JsError Store
  | [], _, st => Except.ok st
  | _ :: _, some (0, e), _ => Except.error e
  | op :: rest, some (n + 1, e), st => runOps rest (some (n, e)) (execOp st op)
  | op :: rest, none, st => runOps rest none (execOp st op)

/-- fetchAndStoreBusData: fetch the payload (rethrowing a fetch failure),
BEGIN TRANSACTION, run the normalization loop, issue the chunked inserts on
the working copy, then COMMIT and return the stop count; if any insert fails,
ROLLBACK (the committed store stays as it was) and rethrow that error. -/
def fetchAndStoreBusData (fetchResult : Except JsError Payload)
    (failAt : Option (Nat × JsError)) (db : Store) : Store × Except JsError Nat :=
  match fetchResult with
  | .error e => (db, .error e)
  | .ok busStopsData =>
    let busStopCount := busStopsData.length
    let b := normalize busStopsData
    match runOps (insertOps 500 b) failAt db with
    | .ok working => (working, .ok busStopCount)
    | .error e => (db, .error e)

/-- The `{ success, message }` object built by ensureDataPopulated and init. -/
structure Outcome where
  success : Bool
  message : String
deriving DecidableEq, Repr

/-- ensureDataPopulated: SELECT COUNT(*) FROM bus_stops; if zero run
fetchAndStoreBusData and report the new count, else report the existing
count without touching the store; the catch block rethrows any error. -/
def ensureDataPopulated (fetchResult : Except JsError Payload)
    (failAt : Option (Nat × JsError)) (db : Store) :
    Store × Except JsError Outcome :=
  let count := db.bus_stops.length
  if count = 0 then
    match fetchAndStoreBusData fetchResult failAt db with
    | (db2, .ok newCount) =>
        (db2, .ok ⟨true, "Successfully loaded " ++ toString newCount ++ " bus stops from API"⟩)
    | (db2, .error e) => (db2, .error e)
  else
    (db, .ok ⟨true, "Database loaded with " ++ toString count ++ " existing bus stops"⟩)

/-- refreshData: DELETE FROM bus_times, then bus_routes, then bus_stops
(each auto-committed), then fetchAndStoreBusData; no handler of its own, so
any failure propagates; returns the bare count on success. -/
def refreshData (fetchResult : Except JsError Payload)
    (failAt : Option (Nat × JsError)) (db : Store) : Store × Except JsError Nat :=
  let db1 : Store := { db with bus_times := [] }
  let db2 : Store := { db1 with bus_routes := [] }
  let db3 : Store := { db2 with bus_stops := [] }
  fetchAndStoreBusData fetchResult failAt db3

/-- init: connect (outcome passed in as `loadResult`), then
ensureDataPopulated; on any caught error return
`{ success: false, message: error.toString() }`, otherwise
`{ success: true, message: result.message }`.  The return type carries no
error case: init never throws. -/
def init (loadResult : Except JsError Unit) (fetchResult : Except JsError Payload)
    (failAt : Option (Nat × JsError)) (db : Store) : Store × Outcome :=
  match loadResult with
  | .error e => (db, ⟨false, errString e⟩)
  | .ok _ =>
    match ensureDataPopulated fetchResult failAt db with
    | (db2, .ok r) => (db2, ⟨true, r.message⟩)
    | (db2, .error e) => (db2, ⟨false, errString e⟩)

/-! ### Helper lemmas about chunking and the insert runner -/

/-- Concatenating the chunks gives back the array, provided the fuel covers
the array and the chunk size is at least 1. -/
theorem chunkArrayGo_join {α : Type} (size : Nat) (hsize : 1 ≤ size) :
    ∀ (fuel : Nat) (arr : List α), arr.length ≤ fuel →
      (chunkArrayGo size fuel arr).flatten = arr := by
  intro fuel
  induction fuel with
  | zero =>
    intro arr hle
    cases arr with
    | nil => simp [chunkArrayGo]
    | cons a as => simp at hle
  | succ fuel ih =>
    intro arr hle
    cases arr with
    | nil => simp [chunkArrayGo]
    | cons a as =>
      have hdrop : ((a :: as).drop size).length ≤ fuel := by
        simp only [List.length_drop, List.length_cons]
        simp only [List.length_cons] at hle
        omega
      simp only [chunkArrayGo, List.flatten_cons, ih _ hdrop, List.take_append_drop]

/-- chunkArray is correctness-neutral: its chunks concatenate back to the
original array for every chunk size at least 1. -/
theorem chunkArray_flatten {α : Type} (arr : List α) (size : Nat) (hsize : 1 ≤ size) :
    (chunkArray arr size).flatten = arr :=
  chunkArrayGo_join size hsize arr.length arr le_rfl

/-- With no failing statement, running the inserts folds their effects over
the working copy. -/
theorem runOps_none (ops : List InsertOp) (st : Store) :
    runOps ops none st = Except.ok (ops.foldl execOp st) := by
  induction ops generalizing st with
  | nil => rfl
  | cons op rest ih => simp [runOps, ih]

/-- If the oracle points at a statement inside the list, running the inserts
raises exactly that error. -/
theorem runOps_fail (ops : List InsertOp) (i : Nat) (e : JsError) (st : Store)
    (h : i < ops.length) : runOps ops (some (i, e)) st = Except.error e := by
  induction ops generalizing i st with
  | nil => simp at h
  | cons op rest ih =>
    cases i with
    | zero => rfl
    | succ n =>
      simp only [List.length_cons, Nat.succ_lt_succ_iff] at h
      simpa [runOps] using ih n (execOp st op) h

/-- Folding a run of stop-chunk inserts appends their concatenation to the
bus_stops table. -/
theorem foldl_execOp_stops (chunks : List (List StopRow)) (st : Store) :
    (chunks.map InsertOp.stops).foldl execOp st
      = { st with bus_stops := st.bus_stops ++ chunks.flatten } := by
  induction chunks generalizing st with
  | nil => simp
  | cons c cs ih => simp [execOp, ih, List.append_assoc]

/-- Folding a run of route-chunk inserts appends their concatenation to the
bus_routes table. -/
theorem foldl_execOp_routes (chunks : List (List RouteRow)) (st : Store) :
    (chunks.map InsertOp.routes).foldl execOp st
      = { st with bus_routes := st.bus_routes ++ chunks.flatten } := by
  induction chunks generalizing st with
  | nil => simp
  | cons c cs ih => simp [execOp, ih, List.append_assoc]

/-- Folding a run of time-chunk inserts appends their concatenation to the
bus_times table. -/
theorem foldl_execOp_times (chunks : List (List TimeRow)) (st : Store) :
    (chunks.map InsertOp.times).foldl execOp st
      = { st with bus_times := st.bus_times ++ chunks.flatten } := by
  induction chunks generalizing st with
  | nil => simp
  | cons c cs ih => simp [execOp, ih, List.append_assoc]

/-- Effect of the whole chunked statement sequence, for any chunk size at
least 1: each batch is appended to its table, and the chunk size is gone from
the result. -/
theorem runOps_insertOps (size : Nat) (hsize : 1 ≤ size) (b : Batches) (st : Store) :
    runOps (insertOps size b) none st
      = Except.ok ⟨st.bus_stops ++ b.stops, st.bus_routes ++ b.routes, st.bus_times ++ b.times⟩ := by
  rw [runOps_none]
  simp only [insertOps, List.foldl_append]
  rw [foldl_execOp_stops, foldl_execOp_routes, foldl_execOp_times]
  simp [chunkArray_flatten _ _ hsize]

/-! ### Concrete sample data used by witnesses and counterexamples -/

/-- A route record with a complete weekday time pair and no weekend data. -/
def demoBus : BusRouteData :=
  ⟨"SBST", 1, some ⟨some "0500", some "2300"⟩, none, none⟩

/-- A stop record carrying one bus line. -/
def demoStop : StopData := ⟨"Main St", "Near Park", 1, 103, [("12", demoBus)]⟩

/-- A one-stop payload with a numeric stop key. -/
def demoPayload : Payload := [("1000", demoStop)]

/-- A store already holding one stop row. -/
def demoStore : Store := ⟨[⟨some 7, "Old Rd", "Old stop", 2, 104⟩], [], []⟩

/-- A stop record with no bus lines. -/
def plainStop : StopData := ⟨"Main St", "Near Park", 1, 103, []⟩

/-! ### Claim theorems -/

/-- Claim C1: the batch write is atomic.  With the transaction open, if any
single insert statement fails (position `i` inside the issued statement list,
raising `e`), fetchAndStoreBusData rolls back — the visible store is exactly
the store from before the call — and propagates that same error. -/
theorem fetchAndStore_insert_failure_atomic (payload : Payload) (db : Store)
    (i : Nat) (e : JsError) (h : i < (insertOps 500 (normalize payload)).length) :
    fetchAndStoreBusData (Except.ok payload) (some (i, e)) db = (db, Except.error e) := by
  simp only [fetchAndStoreBusData]
  rw [runOps_fail _ _ _ _ h]

/-- Witness for C1: on the one-stop payload the statement list is non-empty,
and failing its first statement leaves the demo store untouched and rethrows
the insert error. -/
theorem fetchAndStore_insert_failure_atomic_witness :
    0 < (insertOps 500 (normalize demoPayload)).length ∧
    fetchAndStoreBusData (Except.ok demoPayload)
        (some (0, JsError.insertFailed "disk full")) demoStore
      = (demoStore, Except.error (JsError.insertFailed "disk full")) :=
  ⟨by decide,
   fetchAndStore_insert_failure_atomic demoPayload demoStore 0
     (JsError.insertFailed "disk full") (by decide)⟩

/-- Claim C7: chunking is correctness-neutral.  For every chunk size of at
least 1, the chunks concatenate back to the original batch, and running the
chunked statement sequence appends exactly the three batches to the store,
independently of the chosen size. -/
theorem chunking_correctness_neutral {α : Type} (arr : List α) (size : Nat)
    (hsize : 1 ≤ size) :
    (chunkArray arr size).flatten = arr ∧
    ∀ (b : Batches) (st : Store),
      runOps (insertOps size b) none st
        = Except.ok ⟨st.bus_stops ++ b.stops, st.bus_routes ++ b.routes,
            st.bus_times ++ b.times⟩ :=
  ⟨chunkArray_flatten arr size hsize, fun b st => runOps_insertOps size hsize b st⟩

/-- Witness for C7 at chunk size 2: the chunks of a three-element list
concatenate back, and the chunked write of the demo batches lands them whole
in the empty store. -/
theorem chunking_correctness_neutral_witness :
    (chunkArray [10, 20, 30] 2).flatten = [10, 20, 30] ∧
    runOps (insertOps 2 (normalize demoPayload)) none emptyStore
      = Except.ok ⟨(normalize demoPayload).stops, (normalize demoPayload).routes,
          (normalize demoPayload).times⟩ :=
  ⟨(chunking_correctness_neutral [10, 20, 30] 2 (by decide)).1,
   by
     have h := (chunking_correctness_neutral ([] : List Nat) 2 (by decide)).2
       (normalize demoPayload) emptyStore
     simpa [emptyStore] using h⟩

/-- Claim C6: ensureDataPopulated branches on the current stop count.  With a
non-zero count it reports the existing count and leaves the store untouched;
with a zero count it runs the full fetch-normalize-write pipeline and reports
the number of newly loaded stops. -/
theorem ensurePopulated_count_branch (db : Store) (fetchResult : Except JsError Payload)
    (failAt : Option (Nat × JsError)) (payload : Payload) :
    (db.bus_stops.length ≠ 0 →
      ensureDataPopulated fetchResult failAt db
        = (db, Except.ok ⟨true, "Database loaded with "
            ++ toString db.bus_stops.length ++ " existing bus stops"⟩)) ∧
    (db.bus_stops.length = 0 →
      ensureDataPopulated (Except.ok payload) none db
        = (⟨db.bus_stops ++ (normalize payload).stops,
            db.bus_routes ++ (normalize payload).routes,
            db.bus_times ++ (normalize payload).times⟩,
           Except.ok ⟨true, "Successfully loaded "
             ++ toString payload.length ++ " bus stops from API"⟩)) := by
  constructor
  · intro h
    simp only [ensureDataPopulated]
    rw [if_neg h]
  · intro h
    simp only [ensureDataPopulated, fetchAndStoreBusData]
    rw [if_pos h, runOps_insertOps 500 (by omega) (normalize payload) db]

/-- Witness for C6, zero branch: populating the empty store from the one-stop
payload writes its batches and reports one loaded stop. -/
theorem ensurePopulated_count_branch_witness :
    emptyStore.bus_stops.length = 0 ∧
    ensureDataPopulated (Except.ok demoPayload) none emptyStore
      = (⟨emptyStore.bus_stops ++ (normalize demoPayload).stops,
          emptyStore.bus_routes ++ (normalize demoPayload).routes,
          emptyStore.bus_times ++ (normalize demoPayload).times⟩,
         Except.ok ⟨true, "Successfully loaded "
           ++ toString demoPayload.length ++ " bus stops from API"⟩) :=
  ⟨rfl,
   (ensurePopulated_count_branch emptyStore (Except.ok demoPayload) none demoPayload).2 rfl⟩

/-- Claim C10: init never throws.  Whatever the outcomes of the database
connection and of population (including thrown lower-level failures), init
returns a structured record: success true with the population message, or
success false with the stringified error as its message. -/
theorem init_returns_structured_outcome (loadResult : Except JsError Unit)
    (fetchResult : Except JsError Payload) (failAt : Option (Nat × JsError))
    (db : Store) :
    ((init loadResult fetchResult failAt db).2.success = true ∧
      ∃ r, loadResult = Except.ok () ∧
        (ensureDataPopulated fetchResult failAt db).2 = Except.ok r ∧
        (init loadResult fetchResult failAt db).2.message = r.message) ∨
    ((init loadResult fetchResult failAt db).2.success = false ∧
      ∃ e, (init loadResult fetchResult failAt db).2.message = errString e ∧
        (loadResult = Except.error e ∨
          (ensureDataPopulated fetchResult failAt db).2 = Except.error e)) := by
  cases loadResult with
  | error e => exact Or.inr ⟨rfl, e, rfl, Or.inl rfl⟩
  | ok u =>
    cases u
    rcases hpop : ensureDataPopulated fetchResult failAt db with ⟨db2, r⟩
    cases r with
    | ok pr => simp [init, hpop]
    | error e => simp [init, hpop]

/-- Claim C2 counterexample: a provider fetch failure escapes
ensureDataPopulated as a thrown fault (its catch block rethrows), so the
operation does not return a structured success-flag/message outcome. -/
theorem ensurePopulated_rethrows_fetch_failure_cex :
    (ensureDataPopulated (Except.error (JsError.fetchFailed "network down"))
        none emptyStore).2
      = Except.error (JsError.fetchFailed "network down") := rfl

/-- Claim C2 amended: on a lower-level failure, ensureDataPopulated and
refreshData both propagate the failure as a thrown fault (and refreshData
returns a bare count rather than a flag/message record on success); the
structured outcome with success false is produced one level up, by init. -/
theorem controller_failures_propagate (e : JsError) (failAt : Option (Nat × JsError))
    (db : Store) (h : db.bus_stops = []) :
    (ensureDataPopulated (Except.error e) failAt db).2 = Except.error e ∧
    (refreshData (Except.error e) failAt db).2 = Except.error e ∧
    (init (Except.ok ()) (Except.error e) failAt db).2 = ⟨false, errString e⟩ := by
  have hlen : db.bus_stops.length = 0 := by rw [h]; rfl
  refine ⟨?_, ?_, ?_⟩
  · simp [ensureDataPopulated, fetchAndStoreBusData, hlen]
  · simp [refreshData, fetchAndStoreBusData]
  · simp [init, ensureDataPopulated, fetchAndStoreBusData, hlen]

/-- Witness for the amended C2 on the empty store: a concrete fetch failure
is rethrown by both controller operations and converted into a structured
failure only by init. -/
theorem controller_failures_propagate_witness :
    emptyStore.bus_stops = [] ∧
    ((ensureDataPopulated (Except.error (JsError.fetchFailed "offline")) none
        emptyStore).2 = Except.error (JsError.fetchFailed "offline") ∧
     (refreshData (Except.error (JsError.fetchFailed "offline")) none
        emptyStore).2 = Except.error (JsError.fetchFailed "offline") ∧
     (init (Except.ok ()) (Except.error (JsError.fetchFailed "offline")) none
        emptyStore).2 = ⟨false, errString (JsError.fetchFailed "offline")⟩) :=
  ⟨rfl, controller_failures_propagate (JsError.fetchFailed "offline") none emptyStore rfl⟩

/-- Claim C3 counterexample: with the non-numeric stop key "abc" the load does
not fail — it returns the stop count 1 — and the stop row is written with a
NaN identifier instead of being rejected before any write. -/
theorem nonNumericKey_load_succeeds_cex :
    (fetchAndStoreBusData (Except.ok [("abc", plainStop)]) none emptyStore).2
      = Except.ok 1 ∧
    (fetchAndStoreBusData (Except.ok [("abc", plainStop)]) none emptyStore).1.bus_stops
      = [⟨none, "Main St", "Near Park", 1, 103⟩] := by
  constructor <;> rfl

/-- Claim C3 amended: a stop key that does not parse as an integer is not a
fatal error — parseInt yields NaN, the load proceeds, and the stop row is
written with a NaN identifier; also, the transaction is opened before the
normalization loop runs, not after it. -/
theorem nonNumericKey_is_nan_not_error (key : String) (sd : StopData) (db : Store)
    (h : parseIntJS key = none) :
    (stopRow key sd).bus_stop_id = none ∧
    (fetchAndStoreBusData (Except.ok [(key, sd)]) none db).2 = Except.ok 1 ∧
    (fetchAndStoreBusData (Except.ok [(key, sd)]) none db).1.bus_stops
      = db.bus_stops ++ [stopRow key sd] := by
  refine ⟨h, ?_, ?_⟩ <;>
  · simp only [fetchAndStoreBusData]
    rw [runOps_insertOps 500 (by omega) (normalize [(key, sd)]) db]
    simp [normalize]

/-- Witness for the amended C3: "abc" parses to NaN and its stop row is still
appended to the demo store, with the load reporting success. -/
theorem nonNumericKey_is_nan_not_error_witness :
    parseIntJS "abc" = none ∧
    ((stopRow "abc" plainStop).bus_stop_id = none ∧
     (fetchAndStoreBusData (Except.ok [("abc", plainStop)]) none demoStore).2
       = Except.ok 1 ∧
     (fetchAndStoreBusData (Except.ok [("abc", plainStop)]) none demoStore).1.bus_stops
       = demoStore.bus_stops ++ [stopRow "abc" plainStop]) :=
  ⟨by decide, nonNumericKey_is_nan_not_error "abc" plainStop demoStore (by decide)⟩

/-- Claim C8 counterexample: with the empty payload, refreshData completes
with a stop count of zero, so a following ensureDataPopulated does trigger a
second fetch — here the second fetch fails and that failure surfaces. -/
theorem refresh_empty_payload_refetches_cex :
    (refreshData (Except.ok []) none demoStore).1.bus_stops.length = 0 ∧
    (ensureDataPopulated (Except.error (JsError.fetchFailed "second fetch")) none
        (refreshData (Except.ok []) none demoStore).1).2
      = Except.error (JsError.fetchFailed "second fetch") := by
  constructor <;> rfl

/-- Claim C8 amended: for every payload with at least one stop, a completed
refresh leaves a non-zero stop count, so a following ensureDataPopulated
short-circuits — its result reports the existing count and does not depend on
the second fetch outcome at all. -/
theorem refresh_nonempty_then_populate_short_circuits (payload : Payload)
    (db : Store) (h : payload ≠ []) (fetch2 : Except JsError Payload)
    (failAt2 : Option (Nat × JsError)) :
    (refreshData (Except.ok payload) none db).1.bus_stops.length = payload.length ∧
    payload.length ≠ 0 ∧
    ensureDataPopulated fetch2 failAt2 (refreshData (Except.ok payload) none db).1
      = ((refreshData (Except.ok payload) none db).1,
         Except.ok ⟨true, "Database loaded with "
           ++ toString payload.length ++ " existing bus stops"⟩) := by
  have hlen : (refreshData (Except.ok payload) none db).1.bus_stops.length
      = payload.length := by
    simp only [refreshData, fetchAndStoreBusData]
    rw [runOps_insertOps 500 (by omega)]
    simp [normalize]
  have hne : payload.length ≠ 0 := fun hc => h (List.length_eq_zero.mp hc)
  refine ⟨hlen, hne, ?_⟩
  simp only [ensureDataPopulated, hlen]
  rw [if_neg hne]

/-- Witness for the amended C8: refreshing with the one-stop payload leaves
one stop, and the follow-up populate call short-circuits even though its own
fetch outcome is a failure. -/
theorem refresh_then_populate_witness :
    demoPayload ≠ [] ∧
    ((refreshData (Except.ok demoPayload) none emptyStore).1.bus_stops.length
        = demoPayload.length ∧
     demoPayload.length ≠ 0 ∧
     ensureDataPopulated (Except.error (JsError.fetchFailed "again")) none
        (refreshData (Except.ok demoPayload) none emptyStore).1
       = ((refreshData (Except.ok demoPayload) none emptyStore).1,
          Except.ok ⟨true, "Database loaded with "
            ++ toString demoPayload.length ++ " existing bus stops"⟩)) :=
  ⟨by decide,
   refresh_nonempty_then_populate_short_circuits demoPayload emptyStore (by decide)
     (Except.error (JsError.fetchFailed "again")) none⟩

/-! ### Route-identifier analysis (claim C5) -/

/-- A route record with no schedule data, for the collision payload. -/
def hyphenBus : BusRouteData := ⟨"X", 1, none, none, none⟩

/-- A stop whose only bus line is "3". -/
def hyphenStopA : StopData := ⟨"A Rd", "A", 1, 103, [("3", hyphenBus)]⟩

/-- A stop whose only bus line is "2-3". -/
def hyphenStopB : StopData := ⟨"B Rd", "B", 1, 103, [("2-3", hyphenBus)]⟩

/-- A payload whose two distinct (stop, line) pairs synthesize the same
route identifier. -/
def hyphenPayload : Payload := [("1-2", hyphenStopA), ("1", hyphenStopB)]

/-- Splitting at a separator character absent from both prefixes is
injective. -/
theorem hyphen_split_inj : ∀ (a : List Char), ('-' : Char) ∉ a →
    ∀ (b : List Char), ('-' : Char) ∉ b →
    ∀ (x y : List Char), a ++ '-' :: x = b ++ '-' :: y → a = b ∧ x = y := by
  intro a
  induction a with
  | nil =>
    intro _ b hb x y h
    cases b with
    | nil =>
      simp only [List.nil_append, List.cons.injEq] at h
      exact ⟨rfl, h.2⟩
    | cons c cs =>
      simp only [List.nil_append, List.cons_append, List.cons.injEq] at h
      exact absurd (h.1 ▸ List.mem_cons_self c cs) hb
  | cons c cs ih =>
    intro ha b hb x y h
    cases b with
    | nil =>
      simp only [List.cons_append, List.nil_append, List.cons.injEq] at h
      exact absurd (h.1 ▸ List.mem_cons_self c cs) ha
    | cons d ds =>
      simp only [List.cons_append, List.cons.injEq] at h
      obtain ⟨h1, h2⟩ := h
      have ha2 : ('-' : Char) ∉ cs := fun hm => ha (List.mem_cons_of_mem _ hm)
      have hb2 : ('-' : Char) ∉ ds := fun hm => hb (List.mem_cons_of_mem _ hm)
      obtain ⟨hpre, hsuf⟩ := ih ha2 ds hb2 x y h2
      exact ⟨by rw [h1, hpre], hsuf⟩

/-- Two strings with equal character lists are equal. -/
theorem string_data_inj (s t : String) (h : s.data = t.data) : s = t := by
  cases s
  cases t
  exact congrArg String.mk h

/-- Claim C5 counterexample: the distinct pairs ("1-2", "3") and ("1", "2-3")
both synthesize route identifier "1-2-3", and a payload holding both stops
produces two route rows sharing that identifier. -/
theorem routeId_collision_cex :
    routeId "1-2" "3" = routeId "1" "2-3" ∧
    (("1-2", "3") : String × String) ≠ ("1", "2-3") ∧
    (normalize hyphenPayload).routes.map RouteRow.route_id = ["1-2-3", "1-2-3"] := by
  refine ⟨rfl, by decide, rfl⟩

/-- Claim C5 amended: every synthesized route identifier is the exact
concatenation of the stop's original textual key, a literal hyphen, and the
line number; and two (stop, line) pairs whose stop keys contain no hyphen
collide only if they are equal. -/
theorem routeId_exact_and_injective :
    (∀ (code : String) (sd : StopData) (row : RouteRow), row ∈ routeRows code sd →
      ∃ p ∈ sd.buses, row.route_id = code ++ "-" ++ p.1) ∧
    (∀ (s1 l1 s2 l2 : String), ('-' : Char) ∉ s1.data → ('-' : Char) ∉ s2.data →
      routeId s1 l1 = routeId s2 l2 → s1 = s2 ∧ l1 = l2) := by
  constructor
  · intro code sd row hrow
    simp only [routeRows, List.mem_map] at hrow
    obtain ⟨p, hp, hrw⟩ := hrow
    exact ⟨p, hp, by rw [← hrw]; rfl⟩
  · intro s1 l1 s2 l2 h1 h2 heq
    have hdata : s1.data ++ '-' :: l1.data = s2.data ++ '-' :: l2.data := by
      have := congrArg String.data heq
      simpa [routeId, String.data_append] using this
    obtain ⟨hs, hl⟩ := hyphen_split_inj s1.data h1 s2.data h2 l1.data l2.data hdata
    exact ⟨string_data_inj _ _ hs, string_data_inj _ _ hl⟩

/-- Witness for the amended C5: the spec's own example key "66019" and line
"73T" satisfy the hyphen-free hypothesis, and the injectivity conclusion
holds for them. -/
theorem routeId_exact_and_injective_witness :
    (('-' : Char) ∉ ("66019" : String).data) ∧
    (("66019" : String) = "66019" ∧ ("73T" : String) = "73T") :=
  ⟨by decide,
   routeId_exact_and_injective.2 "66019" "73T" "66019" "73T"
     (by decide) (by decide) rfl⟩

/-! ### Schedule-entry analysis (claim C4) -/

/-- Characterization of the per-day push: a bus_times row comes out exactly
when the day record holds both members, both non-empty, and then the row
carries exactly those two times. -/
theorem scheduleRow_eq_some (rid d : String) (tp : Option TimePair) (row : TimeRow) :
    scheduleRow rid d tp = some row ↔
      ∃ fb lb, tp = some ⟨some fb, some lb⟩ ∧ fb ≠ "" ∧ lb ≠ ""
        ∧ row = ⟨rid, d, fb, lb⟩ := by
  cases tp with
  | none => simp [scheduleRow]
  | some p =>
    obtain ⟨fbo, lbo⟩ := p
    cases fbo with
    | none => simp [scheduleRow]
    | some fb =>
      cases lbo with
      | none => simp [scheduleRow]
      | some lb =>
        simp only [scheduleRow]
        split
        · rename_i hc
          constructor
          · intro hr
            exact ⟨fb, lb, rfl, hc.1, hc.2, (Option.some.injEq _ _ ▸ hr).symm⟩
          · rintro ⟨fb2, lb2, hp, _, _, hrow⟩
            simp only [Option.some.injEq, TimePair.mk.injEq] at hp
            obtain ⟨h1, h2⟩ := hp
            subst hrow
            rw [h1, h2]
        · rename_i hc
          constructor
          · intro hr
            exact absurd hr (by simp)
          · rintro ⟨fb2, lb2, hp, hfb2, hlb2, _⟩
            simp only [Option.some.injEq, TimePair.mk.injEq] at hp
            obtain ⟨h1, h2⟩ := hp
            exact absurd ⟨h1 ▸ hfb2, h2 ▸ hlb2⟩ hc

/-- Membership in the rows pushed for one route record, slot by slot. -/
theorem mem_scheduleRows (rid : String) (r : BusRouteData) (row : TimeRow) :
    row ∈ scheduleRows rid r ↔
      scheduleRow rid "wd" r.wd_flb = some row ∨
      scheduleRow rid "sat" r.sat_flb = some row ∨
      scheduleRow rid "sun" r.sun_flb = some row := by
  simp [scheduleRows, List.mem_filterMap, dayPairs]

/-- Day-slot analysis shared by the three day-classes: if a list of rows is
exactly what the target slot and two other slots (with different day strings)
produce, then rows for the target day exist iff the target slot holds a
complete non-empty pair, and such rows carry exactly that pair. -/
theorem slots_spec (rid d : String) (tp o1 o2 : Option TimePair) (d1 d2 : String)
    (S : List TimeRow) (hd1 : d1 ≠ d) (hd2 : d2 ≠ d)
    (hmem : ∀ row, row ∈ S ↔ (scheduleRow rid d tp = some row ∨
        scheduleRow rid d1 o1 = some row ∨ scheduleRow rid d2 o2 = some row)) :
    ((∃ row ∈ S, row.day_of_week = d) ↔
      ∃ fb lb, tp = some ⟨some fb, some lb⟩ ∧ fb ≠ "" ∧ lb ≠ "") ∧
    (∀ row ∈ S, row.day_of_week = d →
      tp = some ⟨some row.first_bus, some row.last_bus⟩
        ∧ row.first_bus ≠ "" ∧ row.last_bus ≠ "") := by
  constructor
  · constructor
    · rintro ⟨row, hrow, hday⟩
      rcases (hmem row).1 hrow with h1 | h1 | h1 <;>
        rw [scheduleRow_eq_some] at h1 <;>
        obtain ⟨fb, lb, hp, hfb, hlb, hrw⟩ := h1 <;> subst hrw
      · exact ⟨fb, lb, hp, hfb, hlb⟩
      · exact absurd hday hd1
      · exact absurd hday hd2
    · rintro ⟨fb, lb, hp, hfb, hlb⟩
      refine ⟨⟨rid, d, fb, lb⟩, (hmem _).2 (Or.inl ?_), rfl⟩
      exact (scheduleRow_eq_some _ _ _ _).2 ⟨fb, lb, hp, hfb, hlb, rfl⟩
  · rintro row hrow hday
    rcases (hmem row).1 hrow with h1 | h1 | h1 <;>
      rw [scheduleRow_eq_some] at h1 <;>
      obtain ⟨fb, lb, hp, hfb, hlb, hrw⟩ := h1 <;> subst hrw
    · exact ⟨hp, hfb, hlb⟩
    · exact absurd hday hd1
    · exact absurd hday hd2

/-- Claim C4: for a route record and a day-class slot (the pair of payload
field and stored day string), a schedule-entry row for that day is produced
iff both the first and last times are present and non-empty there; and any
produced row carries exactly those payload times — never nulls or defaults. -/
theorem schedule_entry_iff_both_times (rid : String) (r : BusRouteData)
    (tp : Option TimePair) (d : String) (h : (tp, d) ∈ dayPairs r) :
    ((∃ row ∈ scheduleRows rid r, row.day_of_week = d) ↔
      ∃ fb lb, tp = some ⟨some fb, some lb⟩ ∧ fb ≠ "" ∧ lb ≠ "") ∧
    (∀ row ∈ scheduleRows rid r, row.day_of_week = d →
      tp = some ⟨some row.first_bus, some row.last_bus⟩
        ∧ row.first_bus ≠ "" ∧ row.last_bus ≠ "") := by
  have hcase : (tp = r.wd_flb ∧ d = "wd") ∨ (tp = r.sat_flb ∧ d = "sat")
      ∨ (tp = r.sun_flb ∧ d = "sun") := by
    simpa [dayPairs, Prod.ext_iff] using h
  rcases hcase with ⟨htp, hd⟩ | ⟨htp, hd⟩ | ⟨htp, hd⟩ <;> subst htp <;> subst hd
  · exact slots_spec rid "wd" r.wd_flb r.sat_flb r.sun_flb "sat" "sun"
      (scheduleRows rid r) (by decide) (by decide)
      (fun row => mem_scheduleRows rid r row)
  · exact slots_spec rid "sat" r.sat_flb r.wd_flb r.sun_flb "wd" "sun"
      (scheduleRows rid r) (by decide) (by decide)
      (fun row => (mem_scheduleRows rid r row).trans (by tauto))
  · exact slots_spec rid "sun" r.sun_flb r.wd_flb r.sat_flb "wd" "sat"
      (scheduleRows rid r) (by decide) (by decide)
      (fun row => (mem_scheduleRows rid r row).trans (by tauto))

/-- Witness for C4 at the demo route record: its weekday slot holds the
complete pair ("0500", "2300"), so the iff and the exactness clause hold
there concretely. -/
theorem schedule_entry_iff_both_times_witness :
    ((some (⟨some "0500", some "2300"⟩ : TimePair), "wd") ∈ dayPairs demoBus) ∧
    (((∃ row ∈ scheduleRows "1000-12" demoBus, row.day_of_week = "wd") ↔
        ∃ fb lb, (some (⟨some "0500", some "2300"⟩ : TimePair))
          = some ⟨some fb, some lb⟩ ∧ fb ≠ "" ∧ lb ≠ "") ∧
     (∀ row ∈ scheduleRows "1000-12" demoBus, row.day_of_week = "wd" →
        (some (⟨some "0500", some "2300"⟩ : TimePair))
          = some ⟨some row.first_bus, some row.last_bus⟩
          ∧ row.first_bus ≠ "" ∧ row.last_bus ≠ "")) :=
  ⟨by decide,
   schedule_entry_iff_both_times "1000-12" demoBus
     (some ⟨some "0500", some "2300"⟩) "wd" (by decide)⟩

end BusApp
